import Mathlib

/-!
# Verification of the Pi Media Hub launcher (`launcher.py`)

A shallow embedding of the control-plane and orchestration logic of
`launcher.py` from the `pi-kiosk` repository, together with theorems
settling the specification's claims about it.

Conventions of the embedding:
* Python strings are Lean `String`s; the Python operators `in`,
  `str.split`, `str.startswith` are embedded as executable structural
  functions over `List Char` (`pyIn`, `pySplit`, `pyStartsWith`).
* JSON documents (`json.loads` / `json.dump` values) are values of the
  inductive type `Json`; serialization is abstracted away (a Python
  `json.dump` followed by `json.load` round-trips the value, so the
  on-disk file is modelled as the `Json` value it holds, or `none`
  when the file does not exist).
* External-world nondeterminism (which binaries `shutil.which` finds,
  whether a `subprocess.run` invocation raises) is an explicit `Env`
  record.
* Side effects (process spawns, terminations, waits, sleeps, shell
  invocations, HTTP responses, `sys.exit`) are recorded as a trace of
  `Event`s returned alongside the new state.
-/

/-! ## Python string primitives -/

/-- Python `a.startswith(b)` on character lists: `b` is a leading
segment of `a`. -/
def pyStartsWithL : List Char → List Char → Bool
  | _, [] => true
  | [], _ :: _ => false
  | a :: as, b :: bs => a == b && pyStartsWithL as bs

/-- Python `needle in haystack` on character lists: `n` occurs as a
contiguous segment of `h`. -/
def pyInL (h n : List Char) : Bool :=
  match h with
  | [] => n.isEmpty
  | _ :: cs => pyStartsWithL h n || pyInL cs n

/-- Python `needle in haystack` on strings. -/
def pyIn (needle haystack : String) : Bool :=
  pyInL haystack.data needle.data

/-- Python `s.startswith(p)` on strings. -/
def pyStartsWith (s p : String) : Bool :=
  pyStartsWithL s.data p.data

/-- Fuel-driven worker for Python `str.split` with a non-empty
separator: scans left to right, emitting the accumulated segment each
time the separator is found and skipping it.  The fuel starts at
`length + 1` and never runs out (each step consumes at least one
character). -/
def pySplitGo (sep : List Char) : Nat → List Char → List Char → List (List Char)
  | _, [], acc => [acc.reverse]
  | 0, rest, acc => [acc.reverse ++ rest]
  | fuel + 1, c :: cs, acc =>
    if pyStartsWithL (c :: cs) sep && !sep.isEmpty then
      acc.reverse :: pySplitGo sep fuel (List.drop sep.length (c :: cs)) []
    else
      pySplitGo sep fuel cs (c :: acc)

/-- Python `s.split(sep)` (non-empty separator) on strings. -/
def pySplit (s sep : String) : List String :=
  (pySplitGo sep.data (s.data.length + 1) s.data []).map fun l => ⟨l⟩

example : pySplit "a/launch/app/b" "/launch/app/" = ["a", "b"] := by decide
example : pySplit "/a/" "/" = ["", "a", ""] := by decide
example : pyIn "/launch/exit" "/launch/app/foo?next=/launch/exit" = true := by decide
example : pyStartsWith "/launch/app/x" "/launch" = true := by decide

/-! ## JSON documents -/

/-- A parsed JSON document (the result of `json.loads`). -/
inductive Json where
  | null
  | bool (b : Bool)
  | num (n : Int)
  | str (s : String)
  | arr (elems : List Json)
  | obj (fields : List (String × Json))

/-- Top-level keys of a JSON object (`new_config.keys()`); non-objects
have none. -/
def Json.keys : Json → List String
  | .obj fields => fields.map Prod.fst
  | _ => []

/-- The six required top-level keys checked by the (unwired) validating
handler `handle_save_config` (`launcher.py:268`). -/
def requiredKeys : List String :=
  ["apps", "display", "startup", "exit", "remote", "advanced"]

/-- `all(key in new_config for key in required_keys)` for an object
document (`launcher.py:269`); a non-object document has no keys. -/
def hasRequiredKeys (j : Json) : Bool :=
  requiredKeys.all fun k => j.keys.contains k

/-! ## Control-plane configuration API (`launcher.py:190-232`)

State touched by the config API: the on-disk `config.json` (modelled as
the `Json` value it holds, `none` when absent) and the launcher's
in-memory `self.config`. -/

/-- The bundled default document loaded when `config.json` is absent
(`config.default.json`, contents irrelevant to the claims). -/
structure ApiState where
  /-- Contents of `config.json`, `none` when the file does not exist. -/
  file : Option Json
  /-- The in-memory `self.config`. -/
  memory : Json

/-- An HTTP response body as written by the handlers. -/
inductive RespBody where
  | json (j : Json)
  | text (s : String)
  | html (s : String)

/-- An HTTP response: status code plus body. -/
structure HttpResp where
  status : Nat
  body : RespBody

/-- `MediaHubLauncher.load_config` (`launcher.py:47-62`): read
`config.json` if it exists, otherwise the bundled default document.
(The `sys.exit(1)` branch fires only on an unreadable/unparsable file,
which cannot arise for a file this model itself wrote.) -/
def load_config (defaultCfg : Json) (file : Option Json) : Json :=
  match file with
  | some j => j
  | none => defaultCfg

/-- `MediaHubLauncher.send_config` (`launcher.py:190-205`): reload the
configuration from disk into `self.config`, then answer `200` with the
document as JSON. -/
def send_config (defaultCfg : Json) (st : ApiState) : ApiState × HttpResp :=
  let cfg := load_config defaultCfg st.file
  ({ st with memory := cfg }, { status := 200, body := .json cfg })

/-- `MediaHubLauncher.save_config_api` (`launcher.py:207-232`), the
handler actually wired to `POST /api/config` by `do_POST`.
`clOk` is whether `int(handler.headers['Content-Length'])` succeeded
(the header is present and numeric); `body` is the result of
`json.loads` on the request body (`none` on a parse failure).  Either
failure raises before the file is opened, so the `except` branch
answers `500 {"success": false, "error": ...}` with both the file and
`self.config` untouched.  On success the document is written to
`config.json` unvalidated, `self.config` is replaced, and the handler
answers `200 {"success": true}`. -/
def save_config_api (clOk : Bool) (body : Option Json) (st : ApiState) :
    ApiState × HttpResp :=
  if clOk then
    match body with
    | some j =>
      ({ file := some j, memory := j },
       { status := 200, body := .json (.obj [("success", .bool true)]) })
    | none =>
      (st, { status := 500,
             body := .json (.obj [("success", .bool false),
                                  ("error", .str "Expecting value")]) })
  else
    (st, { status := 500,
           body := .json (.obj [("success", .bool false),
                                ("error", .str "invalid Content-Length")]) })

/-- `CustomHandler.do_POST` (`launcher.py:126-140`): `/api/config` is
handled by `save_config_api`; every other path gets `404`. -/
def do_POST (path : String) (clOk : Bool) (body : Option Json)
    (st : ApiState) : ApiState × HttpResp :=
  if path == "/api/config" then save_config_api clOk body st
  else (st, { status := 404, body := .text "" })

/-! ## Session orchestration (`launcher.py:295-520`)

Process side effects are recorded as an ordered trace of events.  A
spawned process is identified by a fresh pid drawn from a counter in
the state. -/

/-- One observable side effect of the orchestrator, in program order. -/
inductive Event where
  /-- `subprocess.Popen(cmd, ...)`. -/
  | spawn (cmd : List String)
  /-- `process.terminate()`. -/
  | terminate (pid : Nat)
  /-- `process.wait()` — the caller blocks here until the process exits. -/
  | wait (pid : Nat)
  /-- `time.sleep`, in milliseconds. -/
  | sleepMs (ms : Nat)
  /-- `subprocess.run(line, shell=True, timeout=timeoutSec, ...)` for CEC. -/
  | cecShell (line : String) (timeoutSec : Nat)
  /-- `subprocess.run(cmd)` (privileged shutdown/reboot). -/
  | runCmd (cmd : List String)
  /-- `sys.exit(code)`. -/
  | exited (code : Nat)
  /-- `handler.send_response(status)` followed by the response body. -/
  | respond (status : Nat)
  /-- `self.http_server.shutdown()`. -/
  | serverShutdown
  /-- `SimpleHTTPRequestHandler.do_GET` static file serving. -/
  | staticServe
  deriving DecidableEq, Repr

/-- One entry of `config['apps']`: optional fields mirror the source's
`app.get(key, default)` accesses. -/
structure AppCfg where
  enabled : Option Bool
  url : String
  launch_method : Option String
  prefer_native : Option Bool
  deriving DecidableEq, Repr

/-- The typed view of the fields of `self.config` that the
orchestration code reads. -/
structure Config where
  /-- `config['apps']` as an association list. -/
  apps : List (String × AppCfg)
  /-- `config['advanced']['chromium_flags']`. -/
  chromium_flags : List String
  /-- `config['remote']['enable_cec']`. -/
  enable_cec : Bool
  /-- `config['exit']['action']`. -/
  exit_action : String
  /-- `config['exit'].get('cec_fallback', 'close')` — `none` when the
  key is absent. -/
  cec_fallback : Option String
  deriving Repr

/-- The external world: which binaries `shutil.which` locates (the
returned path), and whether the CEC `subprocess.run` invocation raises
(`TimeoutExpired` after 5 s, or any other execution error). -/
structure Env where
  which : String → Option String
  cecRunRaises : Bool

/-- Mutable orchestrator state: the two process handles and a fresh-pid
counter standing in for the OS allocator. -/
structure St where
  /-- `self.browser_process`. -/
  browser_process : Option Nat
  /-- `self.app_process`. -/
  app_process : Option Nat
  nextPid : Nat
  deriving DecidableEq, Repr

/-- `self.port`, set in `__init__` and never changed. -/
def port : Nat := 8000

/-- The hub URL `f'http://127.0.0.1:{self.port}/index.html'`. -/
def hubUrl : String := "http://127.0.0.1:8000/index.html"

/-- `MediaHubLauncher.find_chromium` (`launcher.py:295-301`): first of
`chromium-browser`, `chromium` that `shutil.which` locates. -/
def find_chromium (env : Env) : Option String :=
  match env.which "chromium-browser" with
  | some path => some path
  | none => env.which "chromium"

/-- `MediaHubLauncher.launch_browser` (`launcher.py:303-332`): launch
the hub page in kiosk mode, non-blocking; `sys.exit(1)` when no
chromium binary is found. -/
def launch_browser (cfg : Config) (env : Env) (st : St) : St × List Event :=
  match find_chromium env with
  | none => (st, [.exited 1])
  | some chromium =>
    let cmd := chromium :: cfg.chromium_flags ++ [hubUrl]
    ({ st with browser_process := some st.nextPid, nextPid := st.nextPid + 1 },
     [.spawn cmd])

/-- `MediaHubLauncher.restart_hub` (`launcher.py:447-451`):
`time.sleep(1)` then relaunch the hub browser. -/
def restart_hub (cfg : Config) (env : Env) (st : St) : St × List Event :=
  ((launch_browser cfg env st).1,
   .sleepMs 1000 :: (launch_browser cfg env st).2)

/-- The spoofed user agent injected for YouTube
(`launcher.py:422`). -/
def spoofUA : String :=
  "--user-agent=Mozilla/5.0 (SMART-TV; Linux; Tizen 5.0) AppleWebKit/537.36 (KHTML, like Gecko) Chrome/94.0.4606.31 TV Safari/537.36"

/-- `MediaHubLauncher.launch_browser_app` (`launcher.py:410-445`):
launch the app URL in chromium (no-op when chromium is absent), block
in `self.app_process.wait()`, then restart the hub. -/
def launch_browser_app (cfg : Config) (env : Env) (app : AppCfg) (st : St) :
    St × List Event :=
  match find_chromium env with
  | none => (st, [])
  | some chromium =>
    let flags := cfg.chromium_flags ++
      (if pyIn "youtube" app.url then [spoofUA] else [])
    let cmd := chromium :: flags ++ [app.url]
    let pid := st.nextPid
    let st1 := { st with app_process := some pid, nextPid := pid + 1 }
    ((restart_hub cfg env st1).1,
     .spawn cmd :: .wait pid :: (restart_hub cfg env st1).2)

/-- The fixed built-in native-app table (`launcher.py:368-371`). -/
def native_apps : List (String × List String) :=
  [("jellyfin", ["jellyfinmediaplayer", "jellyfin-media-player"]),
   ("spotify", ["spotify"])]

/-- The candidate loop of `launch_native_app` (`launcher.py:377-408`):
for the first candidate `shutil.which` locates, build the launch
command (jellyfin gets fixed fullscreen/eglfs flags), spawn it, block
in `self.app_process.wait()`, restart the hub and return `true`;
if no candidate is installed return `false`. -/
def tryNativeCandidates (cfg : Config) (env : Env) (app_key : String)
    (st : St) : List String → Bool × St × List Event
  | [] => (false, st, [])
  | c :: cs =>
    if (env.which c).isSome then
      let launch_cmd :=
        if app_key == "jellyfin" then [c, "--fullscreen", "--platform", "eglfs"]
        else [c]
      let pid := st.nextPid
      let st1 := { st with app_process := some pid, nextPid := pid + 1 }
      (true, (restart_hub cfg env st1).1,
       .spawn launch_cmd :: .wait pid :: (restart_hub cfg env st1).2)
    else tryNativeCandidates cfg env app_key st cs

/-- `MediaHubLauncher.launch_native_app` (`launcher.py:366-408`):
`false` when the key has no entry in the fixed table, otherwise the
candidate loop. -/
def launch_native_app (cfg : Config) (env : Env) (app_key : String)
    (st : St) : Bool × St × List Event :=
  match List.lookup app_key native_apps with
  | none => (false, st, [])
  | some cands => tryNativeCandidates cfg env app_key st cands

/-- `MediaHubLauncher.launch_app` (`launcher.py:334-364`): no-op for an
unknown or disabled key; otherwise terminate the current hub browser
(0.5 s grace sleep, handle left in place), then dispatch on
`launch_method` (default `browser`). -/
def launch_app (cfg : Config) (env : Env) (app_key : String) (st : St) :
    St × List Event :=
  match List.lookup app_key cfg.apps with
  | none => (st, [])
  | some app =>
    if !(app.enabled.getD false) then (st, [])
    else
      let ev0 : List Event :=
        match st.browser_process with
        | some p => [.terminate p, .sleepMs 500]
        | none => []
      let method := app.launch_method.getD "browser"
      if method == "auto" then
        if app.prefer_native.getD false then
          let r := launch_native_app cfg env app_key st
          if r.1 then (r.2.1, ev0 ++ r.2.2)
          else
            ((launch_browser_app cfg env app r.2.1).1,
             ev0 ++ r.2.2 ++ (launch_browser_app cfg env app r.2.1).2)
        else
          ((launch_browser_app cfg env app st).1,
           ev0 ++ (launch_browser_app cfg env app st).2)
      else if method == "native" then
        ((launch_native_app cfg env app_key st).2.1,
         ev0 ++ (launch_native_app cfg env app_key st).2.2)
      else
        ((launch_browser_app cfg env app st).1,
         ev0 ++ (launch_browser_app cfg env app st).2)

/-! ## CEC control (`launcher.py:453-480`) -/

/-- The fixed CEC command table (`launcher.py:463-467`). -/
def cec_commands : List (String × String) :=
  [("standby", "standby 0"), ("on", "on 0"), ("status", "pow 0")]

/-- `MediaHubLauncher.cec_command` (`launcher.py:453-480`).  Returns
`false` without invoking anything when CEC is disabled, when
`cec-client` is absent, or for an unknown command.  Otherwise the
shell pipeline is run with `timeout=5`; the whole invocation sits in a
`try`/`except Exception` block, so a timeout or any execution error
yields `false` rather than a propagated exception — the function is
total by construction, mirroring that every raise site is caught. -/
def cec_command (cfg : Config) (env : Env) (command : String) :
    Bool × List Event :=
  if !cfg.enable_cec then (false, [])
  else if (env.which "cec-client").isNone then (false, [])
  else
    match List.lookup command cec_commands with
    | none => (false, [])
    | some wire =>
      let line := "echo \"" ++ wire ++ "\" | cec-client -s -d 1"
      if env.cecRunRaises then (false, [.cecShell line 5])
      else (true, [.cecShell line 5])

/-! ## Exit procedure (`launcher.py:482-525`) -/

/-- `MediaHubLauncher.cleanup` (`launcher.py:506-519`): terminate and
join both owned processes when present, then stop the HTTP server. -/
def cleanup (st : St) : List Event :=
  (match st.browser_process with
   | some p => [Event.terminate p, Event.wait p]
   | none => []) ++
  (match st.app_process with
   | some p => [Event.terminate p, Event.wait p]
   | none => []) ++
  [Event.serverShutdown]

/-- The action-resolution step of `handle_exit` (`launcher.py:486-493`):
when the configured action is `cec_standby` and the CEC standby
attempt reports failure, the local `action` variable is reassigned to
`config['exit'].get('cec_fallback', 'close')`; otherwise it keeps the
configured value. -/
def resolveExitAction (cfg : Config) (env : Env) : String :=
  if cfg.exit_action == "cec_standby" && !(cec_command cfg env "standby").1 then
    cfg.cec_fallback.getD "close"
  else cfg.exit_action

/-- `MediaHubLauncher.handle_exit` (`launcher.py:482-504`): attempt CEC
standby when configured (its side effects come first in the trace),
then dispatch the resolved action: `shutdown` and `reboot` run the
privileged command; anything else closes the application (cleanup then
`sys.exit(0)`). -/
def handle_exit (cfg : Config) (env : Env) (st : St) : List Event :=
  let ev1 :=
    if cfg.exit_action == "cec_standby" then (cec_command cfg env "standby").2
    else []
  let action := resolveExitAction cfg env
  if action == "shutdown" then ev1 ++ [.runCmd ["sudo", "shutdown", "-h", "now"]]
  else if action == "reboot" then ev1 ++ [.runCmd ["sudo", "reboot"]]
  else ev1 ++ cleanup st ++ [.exited 0]

/-! ## Launch request routing (`launcher.py:104-124`, `234-242`) -/

/-- The dispatch decision taken by `handle_launch_request`
(`launcher.py:238-242`). -/
inductive LaunchAction where
  | exitReq
  | app (key : String)
  | ignore
  deriving DecidableEq, Repr

/-- `path.split('/launch/app/')[-1].split('?')[0]`
(`launcher.py:241`). -/
def extract_app_key (path : String) : String :=
  (pySplit ((pySplit path "/launch/app/").getLastD "") "?").headD ""

/-- The branch structure of `MediaHubLauncher.handle_launch_request`
(`launcher.py:234-242`): a substring test for `/launch/exit` first,
then a substring test for `/launch/app/` with key extraction, else
nothing. -/
def launch_dispatch (path : String) : LaunchAction :=
  if pyIn "/launch/exit" path then .exitReq
  else if pyIn "/launch/app/" path then .app (extract_app_key path)
  else .ignore

/-- `MediaHubLauncher.handle_launch_request` (`launcher.py:234-242`)
with its effects. -/
def handle_launch_request (cfg : Config) (env : Env) (path : String)
    (st : St) : St × List Event :=
  match launch_dispatch path with
  | .exitReq => (st, handle_exit cfg env st)
  | .app key => launch_app cfg env key st
  | .ignore => (st, [])

/-- `CustomHandler.do_GET` (`launcher.py:104-124`), the request handler
run by the HTTP server: `/api/config` answers with the configuration
(body-level model in `send_config`); a path starting with `/launch`
first runs `handle_launch_request` to completion — including any
blocking `wait` it performs — and only then sends the `200`
acknowledgement; anything else is served as a static file. -/
def do_GET (cfg : Config) (env : Env) (path : String) (st : St) :
    St × List Event :=
  if path == "/api/config" then (st, [.respond 200])
  else if pyStartsWith path "/launch" then
    ((handle_launch_request cfg env path st).1,
     (handle_launch_request cfg env path st).2 ++ [.respond 200])
  else (st, [.staticServe])

/-! ## Derived observations on traces -/

/-- The first candidate binary of a list that `shutil.which` locates
(the installed native candidate the loop of `launch_native_app` will
pick). -/
def firstInstalled (env : Env) : List String → Option String
  | [] => none
  | c :: cs => if (env.which c).isSome then some c else firstInstalled env cs

/-- The native launch command built at `launcher.py:386-389`. -/
def nativeLaunchCmd (app_key c : String) : List String :=
  if app_key == "jellyfin" then [c, "--fullscreen", "--platform", "eglfs"]
  else [c]

/-- The commands of all `subprocess.Popen` events of a trace, in
order. -/
def spawnedCmds (evs : List Event) : List (List String) :=
  evs.filterMap fun e =>
    match e with
    | .spawn c => some c
    | _ => none

/-- Whether an event spawns a browser process: a `Popen` whose
executable is the chromium binary `find_chromium` locates. -/
def isBrowserSpawn (env : Env) : Event → Bool
  | .spawn cmd =>
    match cmd.head? with
    | some exe => find_chromium env == some exe
    | none => false
  | _ => false

/-! ## Concrete fixtures used by witnesses and counterexamples -/

/-- An environment where chromium and the spotify native binary are
installed, `cec-client` is not, and CEC invocations do not raise. -/
def envFull : Env :=
  { which := fun c =>
      if c == "chromium-browser" then some "/usr/bin/chromium-browser"
      else if c == "spotify" then some "/usr/bin/spotify"
      else none,
    cecRunRaises := false }

/-- An environment with no binaries installed at all. -/
def envBare : Env := { which := fun _ => none, cecRunRaises := false }

/-- An enabled app with `launch_method = auto`, `prefer_native = true`
and a native candidate in the fixed table. -/
def spotifyApp : AppCfg :=
  { enabled := some true, url := "https://open.spotify.com",
    launch_method := some "auto", prefer_native := some true }

/-- An enabled browser-method app whose URL triggers the user-agent
spoof. -/
def youtubeApp : AppCfg :=
  { enabled := some true, url := "https://youtube.com/tv",
    launch_method := some "browser", prefer_native := none }

/-- An enabled `auto` app with no entry in the native table. -/
def netflixApp : AppCfg :=
  { enabled := some true, url := "https://netflix.com",
    launch_method := some "auto", prefer_native := none }

/-- A disabled app. -/
def disabledApp : AppCfg :=
  { enabled := some false, url := "https://x.example",
    launch_method := none, prefer_native := none }

/-- A configuration with the four fixture apps, one chromium flag, CEC
disabled, and exit action `close`. -/
def cfg0 : Config :=
  { apps := [("spotify", spotifyApp), ("youtube", youtubeApp),
             ("netflix", netflixApp), ("offapp", disabledApp)],
    chromium_flags := ["--kiosk"],
    enable_cec := false,
    exit_action := "close",
    cec_fallback := none }

/-- A configuration whose exit action is `cec_standby` with fallback
`reboot` and CEC disabled (the spec's scenario). -/
def cfgExit : Config :=
  { apps := [], chromium_flags := [], enable_cec := false,
    exit_action := "cec_standby", cec_fallback := some "reboot" }

/-- Running state: hub browser foreground (pid 1), no app process. -/
def st0 : St := { browser_process := some 1, app_process := none, nextPid := 2 }

/-- A configuration document with all six required top-level keys. -/
def fullCfgJson : Json :=
  .obj [("apps", .obj []), ("display", .obj []), ("startup", .obj []),
        ("exit", .obj []), ("remote", .obj []), ("advanced", .obj [])]

/-- A partial document: only `apps`, five required keys missing. -/
def partialJson : Json := .obj [("apps", .obj [])]

/-- API state with `fullCfgJson` on disk and in memory. -/
def apiSt0 : ApiState := { file := some fullCfgJson, memory := fullCfgJson }

/-! ## Claims -/

/-- **C1** (code bug).  The claim says a `POST /api/config` body missing
required top-level keys is rejected with `400` and the file left
unchanged.  The handler actually wired by `do_POST`
(`save_config_api`, `launcher.py:207-232`) performs no key validation:
evaluated on a body holding only `apps`, the request is answered `200
{"success": true}` and the partial document replaces the on-disk file.
(The validating handler `handle_save_config`, `launcher.py:260-293`,
implements exactly the claimed behaviour but is never invoked.) -/
theorem partial_config_write_persisted :
    hasRequiredKeys partialJson = false ∧
    (do_POST "/api/config" true (some partialJson) apiSt0).2.status = 200 ∧
    (do_POST "/api/config" true (some partialJson) apiSt0).1.file
      = some partialJson ∧
    (do_POST "/api/config" true (some partialJson) apiSt0).1.file
      ≠ apiSt0.file := by
  refine ⟨by decide, rfl, rfl, ?_⟩
  intro h
  simp [do_POST, save_config_api, partialJson, apiSt0, fullCfgJson] at h

/-- **C10** (confirmed).  A `POST /api/config` whose `Content-Length`
header is missing/invalid, or whose body fails JSON parsing, raises
before `config.json` is opened for writing: the handler answers `500`
with `{"success": false, "error": ...}` and both the on-disk file and
the in-memory configuration are unchanged. -/
theorem malformed_config_write_rejected (st : ApiState) (clOk : Bool)
    (body : Option Json) (h : clOk = false ∨ body = none) :
    (do_POST "/api/config" clOk body st).1 = st ∧
    (do_POST "/api/config" clOk body st).2.status = 500 ∧
    ∃ msg, (do_POST "/api/config" clOk body st).2.body
      = .json (.obj [("success", .bool false), ("error", .str msg)]) := by
  rcases h with h | h
  · subst h; cases body <;> simp [do_POST, save_config_api]
  · subst h; cases clOk <;> simp [do_POST, save_config_api]

/-- Witness for C10: a parse failure (`body = none`) with a valid
`Content-Length` leaves the state unchanged and answers `500`. -/
theorem malformed_config_write_rejected_witness :
    (do_POST "/api/config" true none apiSt0).1 = apiSt0 ∧
    (do_POST "/api/config" true none apiSt0).2.status = 500 ∧
    ∃ msg, (do_POST "/api/config" true none apiSt0).2.body
      = .json (.obj [("success", .bool false), ("error", .str msg)]) :=
  malformed_config_write_rejected apiSt0 true none (Or.inr rfl)

/-- **C8** (confirmed).  A `POST /api/config` carrying a document with
all six required keys persists it verbatim to `config.json`, and
`GET /api/config` immediately afterwards (`send_config`, which
re-reads from disk) returns the identical document. -/
theorem config_write_read_roundtrip (defaultCfg : Json) (st : ApiState)
    (j : Json) (_six : hasRequiredKeys j = true) :
    (do_POST "/api/config" true (some j) st).1.file = some j ∧
    (send_config defaultCfg (do_POST "/api/config" true (some j) st).1).2
      = { status := 200, body := .json j } := by
  exact ⟨rfl, rfl⟩

/-- Witness for C8 at the six-key document `fullCfgJson`. -/
theorem config_write_read_roundtrip_witness :
    (do_POST "/api/config" true (some fullCfgJson) apiSt0).1.file
      = some fullCfgJson ∧
    (send_config fullCfgJson
        (do_POST "/api/config" true (some fullCfgJson) apiSt0).1).2
      = { status := 200, body := .json fullCfgJson } :=
  config_write_read_roundtrip fullCfgJson apiSt0 fullCfgJson (by decide)

/-- **C9** (confirmed).  `handle_launch_request` tests for the
substring `/launch/exit` first: any path containing it anywhere
(including inside a query string) triggers the exit procedure and
never reaches app-key extraction; the app branch is taken only when
`/launch/exit` does not occur in the path. -/
theorem launch_exit_substring_dominates (cfg : Config) (env : Env)
    (st : St) (path : String)
    (_h : pyStartsWith path "/launch" = true) :
    (pyIn "/launch/exit" path = true →
      launch_dispatch path = .exitReq ∧
      handle_launch_request cfg env path st = (st, handle_exit cfg env st)) ∧
    (∀ k, launch_dispatch path = .app k →
      pyIn "/launch/exit" path = false ∧ pyIn "/launch/app/" path = true ∧
      k = extract_app_key path) := by
  constructor
  · intro he
    constructor
    · simp [launch_dispatch, he]
    · simp [handle_launch_request, launch_dispatch, he]
  · intro k hk
    unfold launch_dispatch at hk
    by_cases he : pyIn "/launch/exit" path = true
    · simp [he] at hk
    · simp only [Bool.not_eq_true] at he
      by_cases ha : pyIn "/launch/app/" path = true
      · simp [he, ha] at hk
        exact ⟨he, ha, hk.symm⟩
      · simp only [Bool.not_eq_true] at ha
        simp [he, ha] at hk

/-- Witness for C9: a launch path whose query string mentions
`/launch/exit` is dispatched to the exit procedure, not to an app
launch. -/
theorem launch_exit_substring_dominates_witness :
    launch_dispatch "/launch/app/foo?next=/launch/exit" = .exitReq ∧
    handle_launch_request cfg0 envFull "/launch/app/foo?next=/launch/exit" st0
      = (st0, handle_exit cfg0 envFull st0) :=
  (launch_exit_substring_dominates cfg0 envFull st0
    "/launch/app/foo?next=/launch/exit" (by decide)).1 (by decide)

/-- **C6** (confirmed).  `launch_app` on a key that is absent from
`config['apps']`, or present but not enabled, returns before touching
anything: the state (both process handles, hence the foreground
session) is unchanged and the trace is empty (no spawn, no
terminate). -/
theorem launch_app_unknown_or_disabled_noop (cfg : Config) (env : Env)
    (key : String) (st : St)
    (h : ∀ app, List.lookup key cfg.apps = some app →
      app.enabled.getD false = false) :
    launch_app cfg env key st = (st, []) := by
  unfold launch_app
  cases hl : List.lookup key cfg.apps with
  | none => rfl
  | some app => simp [h app hl]

/-- Witness for C6: the disabled fixture app is a no-op. -/
theorem launch_app_unknown_or_disabled_noop_witness :
    launch_app cfg0 envFull "offapp" st0 = (st0, []) :=
  launch_app_unknown_or_disabled_noop cfg0 envFull "offapp" st0
    (by
      intro app hl
      rw [show List.lookup "offapp" cfg0.apps = some disabledApp from by decide]
        at hl
      injection hl with h2
      subst h2
      decide)

/-- **C7** (confirmed).  `cec_command` reports failure — it never
raises (every raise site sits inside its `try`/`except Exception`
block, which is what makes the embedded function total): with CEC
disabled it returns `false` without invoking anything; likewise when
`cec-client` is absent; when the `subprocess.run` invocation raises
(timeout after 5 s or any execution error) it returns `false`; and
every CEC shell invocation it performs carries the hard 5-second
timeout. -/
theorem cec_command_failures_reported (cfg : Config) (env : Env)
    (c : String) :
    (cfg.enable_cec = false → cec_command cfg env c = (false, [])) ∧
    (env.which "cec-client" = none → cec_command cfg env c = (false, [])) ∧
    (env.cecRunRaises = true → (cec_command cfg env c).1 = false) ∧
    (∀ line t, Event.cecShell line t ∈ (cec_command cfg env c).2 → t = 5) := by
  refine ⟨?_, ?_, ?_, ?_⟩
  · intro h
    simp [cec_command, h]
  · intro h
    cases hc : cfg.enable_cec <;> simp [cec_command, hc, h]
  · intro h
    unfold cec_command
    simp only [h]
    repeat' split
    all_goals simp_all
  · intro line t hmem
    unfold cec_command at hmem
    repeat' split at hmem
    all_goals simp at hmem
    all_goals exact hmem.2

/-- Witness for C7: with CEC disabled in `cfg0`, the standby command
reports failure without invoking anything; the absent-binary and
raising cases are also instantiated. -/
theorem cec_command_failures_reported_witness :
    cec_command cfg0 envFull "standby" = (false, []) ∧
    cec_command { cfg0 with enable_cec := true } envBare "standby"
      = (false, []) :=
  ⟨(cec_command_failures_reported cfg0 envFull "standby").1 rfl,
   (cec_command_failures_reported { cfg0 with enable_cec := true }
      envBare "standby").2.1 rfl⟩

/-- **C3** (confirmed).  When the configured exit action is
`cec_standby` and the standby attempt fails, the resolved action is
the configured `cec_fallback` with default `close`; in particular with
CEC disabled and `cec_fallback = reboot`, the exit request runs
`sudo reboot` and no CEC shell invocation (no standby attempt) appears
in the trace. -/
theorem exit_cec_standby_fallback (cfg : Config) (env : Env) (st : St)
    (ha : cfg.exit_action = "cec_standby")
    (hfail : (cec_command cfg env "standby").1 = false) :
    resolveExitAction cfg env = cfg.cec_fallback.getD "close" ∧
    (cfg.enable_cec = false → cfg.cec_fallback = some "reboot" →
      handle_exit cfg env st = [Event.runCmd ["sudo", "reboot"]] ∧
      ∀ line t, Event.cecShell line t ∉ handle_exit cfg env st) := by
  have h1 : resolveExitAction cfg env = cfg.cec_fallback.getD "close" := by
    simp [resolveExitAction, ha, hfail]
  refine ⟨h1, ?_⟩
  intro hc hr
  have h2 : cec_command cfg env "standby" = (false, []) := by
    simp [cec_command, hc]
  have h3 : handle_exit cfg env st = [Event.runCmd ["sudo", "reboot"]] := by
    simp [handle_exit, ha, h2, h1, hr]
  exact ⟨h3, by simp [h3]⟩

/-- Witness for C3: the spec's scenario config (`cec_standby` with
CEC disabled and fallback `reboot`) reboots and never attempts
standby. -/
theorem exit_cec_standby_fallback_witness :
    resolveExitAction cfgExit envFull = "reboot" ∧
    handle_exit cfgExit envFull st0 = [Event.runCmd ["sudo", "reboot"]] := by
  have h := exit_cec_standby_fallback cfgExit envFull st0 rfl (by decide)
  exact ⟨h.1.trans (by decide), (h.2 rfl rfl).1⟩

/-- The last element of a nonempty list ending in `[a]` is `a`. -/
theorem getLast?_cons_append_singleton {α : Type} (c : α) (l : List α)
    (a : α) : (c :: l ++ [a]).getLast? = some a := by
  induction l generalizing c with
  | nil => rfl
  | cons d ds ih => exact ih d

/-- When some candidate is installed, the candidate loop launches the
first installed one, waits on it, restarts the hub, and reports
success. -/
theorem tryNativeCandidates_installed (cfg : Config) (env : Env)
    (key : String) (st : St) (cands : List String) (c : String)
    (h : firstInstalled env cands = some c) :
    tryNativeCandidates cfg env key st cands =
      (true,
       (restart_hub cfg env
         { st with app_process := some st.nextPid,
                   nextPid := st.nextPid + 1 }).1,
       Event.spawn (nativeLaunchCmd key c) :: Event.wait st.nextPid ::
         (restart_hub cfg env
           { st with app_process := some st.nextPid,
                     nextPid := st.nextPid + 1 }).2) := by
  induction cands with
  | nil => simp [firstInstalled] at h
  | cons a as ih =>
    unfold firstInstalled at h
    unfold tryNativeCandidates
    cases hw : (env.which a).isSome
    · simp only [hw, Bool.false_eq_true, if_false] at h
      simp only [hw, Bool.false_eq_true, if_false]
      exact ih h
    · simp only [hw, if_true] at h
      injection h with h
      subst h
      simp [nativeLaunchCmd]

/-- When no candidate is installed, the candidate loop is a no-op
reporting failure. -/
theorem tryNativeCandidates_none (cfg : Config) (env : Env) (key : String)
    (st : St) (cands : List String)
    (h : firstInstalled env cands = none) :
    tryNativeCandidates cfg env key st cands = (false, st, []) := by
  induction cands with
  | nil => rfl
  | cons a as ih =>
    unfold firstInstalled at h
    unfold tryNativeCandidates
    cases hw : (env.which a).isSome
    · simp only [hw, Bool.false_eq_true, if_false] at h
      simp only [hw, Bool.false_eq_true, if_false]
      exact ih h
    · simp only [hw, if_true] at h
      exact Option.noConfusion h

/-- `launch_native_app` fails without side effects when the key has no
native-table entry or no listed candidate is installed. -/
theorem launch_native_app_not_installed (cfg : Config) (env : Env)
    (key : String) (st : St)
    (h : (List.lookup key native_apps).bind (firstInstalled env) = none) :
    launch_native_app cfg env key st = (false, st, []) := by
  unfold launch_native_app
  cases hl : List.lookup key native_apps with
  | none => rfl
  | some cands =>
    rw [hl] at h
    simp only [Option.some_bind] at h
    exact tryNativeCandidates_none cfg env key st cands h

/-- **C4** (corrected), counterexample to the claim as stated.  For the
`spotify` fixture (enabled, `launch_method = auto`,
`prefer_native = true`, native binary installed) the native launch is
attempted and succeeds — but the call does spawn a browser process:
after the blocking wait on the native app returns, `restart_hub`
relaunches the hub page in chromium within the same `launch_app`
call.  The claim's "no browser process is spawned by that call" is
therefore false. -/
theorem auto_prefer_native_spawns_hub_browser :
    (List.lookup "spotify" cfg0.apps = some spotifyApp ∧
     spotifyApp.enabled.getD false = true ∧
     spotifyApp.launch_method.getD "browser" = "auto" ∧
     spotifyApp.prefer_native.getD false = true ∧
     (envFull.which "spotify").isSome = true) ∧
    (launch_app cfg0 envFull "spotify" st0).2.any (isBrowserSpawn envFull)
      = true := by decide

/-- **C4** (corrected), the amended claim.  Under the claim's
hypotheses the native launch is attempted first and succeeds: the only
process spawned before the blocking wait is the native command, and
every process spawned afterwards is the hub-page relaunch (its command
line ends in the hub URL) — no browser process hosting the app is ever
spawned by the call. -/
theorem auto_prefer_native_no_browser_app_spawn
    (cfg : Config) (env : Env) (st : St) (key : String) (app : AppCfg)
    (c : String)
    (hl : List.lookup key cfg.apps = some app)
    (hen : app.enabled.getD false = true)
    (hm : app.launch_method.getD "browser" = "auto")
    (hp : app.prefer_native.getD false = true)
    (hcand : (List.lookup key native_apps).bind (firstInstalled env)
      = some c) :
    ∃ pre post,
      (launch_app cfg env key st).2 = pre ++ Event.wait st.nextPid :: post ∧
      spawnedCmds pre = [nativeLaunchCmd key c] ∧
      ∀ cmd ∈ spawnedCmds post, cmd.getLast? = some hubUrl := by
  obtain ⟨cands, hcs, hfi⟩ :
      ∃ cands, List.lookup key native_apps = some cands ∧
        firstInstalled env cands = some c := by
    cases hna : List.lookup key native_apps with
    | none => rw [hna] at hcand; exact absurd hcand (by simp)
    | some cands =>
      rw [hna] at hcand
      simp only [Option.some_bind] at hcand
      exact ⟨cands, rfl, hcand⟩
  have hnat : launch_native_app cfg env key st =
      (true,
       (restart_hub cfg env
         { st with app_process := some st.nextPid,
                   nextPid := st.nextPid + 1 }).1,
       Event.spawn (nativeLaunchCmd key c) :: Event.wait st.nextPid ::
         (restart_hub cfg env
           { st with app_process := some st.nextPid,
                     nextPid := st.nextPid + 1 }).2) := by
    unfold launch_native_app
    rw [hcs]
    exact tryNativeCandidates_installed cfg env key st cands c hfi
  unfold launch_app
  simp only [hl, hen, hm, hp, hnat, Bool.not_true, Bool.false_eq_true,
    if_false, beq_self_eq_true, if_true]
  refine ⟨(match st.browser_process with
           | some p => [Event.terminate p, Event.sleepMs 500]
           | none => []) ++ [Event.spawn (nativeLaunchCmd key c)],
          (restart_hub cfg env
            { st with app_process := some st.nextPid,
                      nextPid := st.nextPid + 1 }).2, ?_, ?_, ?_⟩
  · simp [List.append_assoc]
  · cases st.browser_process <;> simp [spawnedCmds]
  · intro cmd hcmd
    unfold restart_hub launch_browser at hcmd
    cases hfc : find_chromium env with
    | none =>
      rw [hfc] at hcmd
      simp [spawnedCmds] at hcmd
    | some ch =>
      rw [hfc] at hcmd
      simp [spawnedCmds] at hcmd
      subst hcmd
      exact getLast?_cons_append_singleton ch cfg.chromium_flags hubUrl

/-- Witness for the amended C4 at the `spotify` fixture. -/
theorem auto_prefer_native_no_browser_app_spawn_witness :
    ∃ pre post,
      (launch_app cfg0 envFull "spotify" st0).2
        = pre ++ Event.wait st0.nextPid :: post ∧
      spawnedCmds pre = [nativeLaunchCmd "spotify" "spotify"] ∧
      ∀ cmd ∈ spawnedCmds post, cmd.getLast? = some hubUrl :=
  auto_prefer_native_no_browser_app_spawn cfg0 envFull st0 "spotify"
    spotifyApp "spotify" (by decide) (by decide) (by decide) (by decide)
    (by decide)

/-- **C5** (corrected), counterexample to the claim as stated.  For the
`netflix` fixture (enabled, `launch_method = auto`, no entry in the
native table) in an environment with no chromium binary installed,
`launch_browser_app` returns after `find_chromium` fails and no
process at all is spawned — contradicting the claim that every such
call spawns a browser process carrying the app's URL. -/
theorem auto_no_chromium_spawns_nothing :
    (List.lookup "netflix" cfg0.apps = some netflixApp ∧
     netflixApp.enabled.getD false = true ∧
     netflixApp.launch_method.getD "browser" = "auto" ∧
     List.lookup "netflix" native_apps = none ∧
     find_chromium envBare = none) ∧
    spawnedCmds (launch_app cfg0 envBare "netflix" st0).2 = [] := by decide

/-- **C5** (corrected), the amended claim.  When additionally a
chromium binary is located, a `launch_method = auto` call on an
enabled app with no installed native candidate spawns a browser
process whose command line contains the app's configured URL. -/
theorem auto_no_native_spawns_browser_with_url
    (cfg : Config) (env : Env) (st : St) (key : String) (app : AppCfg)
    (ch : String)
    (hl : List.lookup key cfg.apps = some app)
    (hen : app.enabled.getD false = true)
    (hm : app.launch_method.getD "browser" = "auto")
    (hnat : (List.lookup key native_apps).bind (firstInstalled env) = none)
    (hch : find_chromium env = some ch) :
    ∃ cmd, Event.spawn cmd ∈ (launch_app cfg env key st).2 ∧
      app.url ∈ cmd := by
  have hnative := launch_native_app_not_installed cfg env key st hnat
  unfold launch_app
  simp only [hl, hen, hm, hnative, Bool.not_true, Bool.false_eq_true,
    if_false, beq_self_eq_true, if_true]
  cases hp : app.prefer_native.getD false
  · simp only [Bool.false_eq_true, if_false]
    unfold launch_browser_app
    rw [hch]
    refine ⟨ch :: (cfg.chromium_flags ++
      (if pyIn "youtube" app.url then [spoofUA] else [])) ++ [app.url],
      ?_, ?_⟩
    · simp
    · simp
  · simp only [if_true]
    unfold launch_browser_app
    rw [hch]
    refine ⟨ch :: (cfg.chromium_flags ++
      (if pyIn "youtube" app.url then [spoofUA] else [])) ++ [app.url],
      ?_, ?_⟩
    · simp
    · simp

/-- Witness for the amended C5 at the `netflix` fixture with chromium
installed. -/
theorem auto_no_native_spawns_browser_with_url_witness :
    ∃ cmd, Event.spawn cmd ∈ (launch_app cfg0 envFull "netflix" st0).2 ∧
      netflixApp.url ∈ cmd :=
  auto_no_native_spawns_browser_with_url cfg0 envFull st0 "netflix"
    netflixApp "/usr/bin/chromium-browser" (by decide) (by decide)
    (by decide) (by decide) (by decide)

/-- **C2** (code bug).  The claim says the blocking wait on an app
process runs on an execution path separate from the HTTP listener.  In
the code, `do_GET` itself calls `handle_launch_request`
synchronously (`launcher.py:111`), and the launch functions block in
`self.app_process.wait()` on that same call path; the server is a
plain single-threaded `HTTPServer` whose `serve_forever` loop runs
the handler to completion before accepting the next connection.
Evaluated on `GET /launch/app/youtube` with the hub browser
foreground: the trace of the request handler contains the blocking
wait on the app process (pid 2), and the `200` acknowledgement —
the handler's last action — comes strictly after it.  While that wait
blocks, the listener is not serving further requests, contrary to the
claim. -/
theorem launch_wait_blocks_http_handler :
    (do_GET cfg0 envFull "/launch/app/youtube" st0).2 =
      [Event.terminate 1, Event.sleepMs 500,
       Event.spawn ["/usr/bin/chromium-browser", "--kiosk", spoofUA,
                    "https://youtube.com/tv"],
       Event.wait 2, Event.sleepMs 1000,
       Event.spawn ["/usr/bin/chromium-browser", "--kiosk", hubUrl],
       Event.respond 200] ∧
    (do_GET cfg0 envFull "/launch/app/youtube" st0).2.indexOf
        (Event.wait 2) <
      (do_GET cfg0 envFull "/launch/app/youtube" st0).2.indexOf
        (Event.respond 200) := by decide
